import Mathlib

/-!
Shallow embedding of the payment-api service (Go, `jeffgrover/payment-api`).

The served application is `cmd/server/main.go`, which wires
`internal/api` (request handlers) onto `internal/db` (a gorm/SQLite
repository).  The handlers and repository methods are pure in all
respects except the SQLite store and `time.Now()`, so they are embedded
as explicit state passing over a `DBState`:

* the four entity tables become four lists, appended to by `Create` and
  scanned front-to-back by `First` (gorm's `First` returns the first
  matching row, `ErrRecordNotFound` when none matches);
* `time.Now()` is modelled as a strictly increasing counter `clock`:
  every call returns the current value and advances it.  This is the
  "monotonically-increasing-enough source" reading of the nanosecond
  clock: no two calls in one process observe the same value;
* store failures (gorm returning an error other than
  `ErrRecordNotFound`) are modelled by a flag `storeFails` that makes
  every repository call report a non-not-found error;
* int64 amounts are modelled as `Int` (the handlers only compare
  amounts, never compute with them, so no overflow can occur);
* Go indexes strings by byte: `len` and slicing on the card number count
  UTF-8 bytes and may split a multi-byte character.  The card number is
  therefore handled through its UTF-8 encoding (`utf8Bytes`), and the
  stored `last4` is the byte list Go would store (a byte slice of a
  valid-UTF-8 string need not itself be a valid string);
* a Go runtime panic (the out-of-range slice in `createPaymentMethod`)
  is a distinguished `Result.panics` outcome.
-/

namespace PaymentAPI

/-- internal/models/customer.go `Customer`. Timestamps are clock ticks. -/
structure Customer where
  id : String
  email : String
  name : String
  createdAt : Nat
  updatedAt : Nat
  deriving Repr, DecidableEq

/-- internal/models `PaymentMethod` (Go field `Type` is `methodType` here).
`last4` holds the bytes of the Go string `Last4`: it is produced by a
byte-level slice and so need not be a valid UTF-8 string of its own. -/
structure PaymentMethod where
  id : String
  customerId : String
  methodType : String
  last4 : List Nat
  expMonth : Int
  expYear : Int
  brand : String
  createdAt : Nat
  deriving Repr, DecidableEq

/-- internal/models `Payment`. -/
structure Payment where
  id : String
  amount : Int
  currency : String
  customerId : String
  paymentMethodId : String
  status : String
  description : String
  createdAt : Nat
  updatedAt : Nat
  deriving Repr, DecidableEq

/-- internal/models/refund.go `Refund`. -/
structure Refund where
  id : String
  paymentId : String
  amount : Int
  status : String
  reason : String
  createdAt : Nat
  updatedAt : Nat
  deriving Repr, DecidableEq

/-- internal/models/customer.go `CreateCustomerRequest`. -/
structure CreateCustomerRequest where
  email : String
  name : String
  deriving Repr, DecidableEq

/-- internal/models `CreatePaymentMethodRequest` (all card fields optional
in the request schema, so `cardNumber` may be any string, including ""). -/
structure CreatePaymentMethodRequest where
  customerId : String
  methodType : String
  cardNumber : String
  expMonth : Int
  expYear : Int
  cvc : String
  deriving Repr, DecidableEq

/-- internal/models `CreatePaymentRequest`. -/
structure CreatePaymentRequest where
  amount : Int
  currency : String
  customerId : String
  paymentMethodId : String
  description : String
  deriving Repr, DecidableEq

/-- internal/models/refund.go `CreateRefundRequest`. -/
structure CreateRefundRequest where
  paymentId : String
  amount : Int
  reason : String
  deriving Repr, DecidableEq

/-- The SQLite store plus the process clock and a store-failure flag. -/
structure DBState where
  customers : List Customer
  paymentMethods : List PaymentMethod
  payments : List Payment
  refunds : List Refund
  clock : Nat
  storeFails : Bool
  deriving Repr, DecidableEq

/-- gorm errors as seen by the handlers: `ErrRecordNotFound` versus any
other store error. -/
inductive DBErr where
  | recordNotFound
  | other
  deriving Repr, DecidableEq

/-- One `time.Now()` call: read the clock, advance it. -/
def DBState.now (s : DBState) : Nat × DBState :=
  (s.clock, { s with clock := s.clock + 1 })

/-- internal/db/db.go `GetCustomer`: `db.First(&customer, "id = ?", id)`. -/
def DBState.getCustomer (s : DBState) (id : String) : Except DBErr Customer :=
  if s.storeFails then .error .other else
  match s.customers.find? (fun c => c.id == id) with
  | some c => .ok c
  | none => .error .recordNotFound

/-- internal/db/db.go `GetPayment`. -/
def DBState.getPayment (s : DBState) (id : String) : Except DBErr Payment :=
  if s.storeFails then .error .other else
  match s.payments.find? (fun p => p.id == id) with
  | some p => .ok p
  | none => .error .recordNotFound

/-- internal/db/db.go `GetPaymentMethodByCustomer`:
`db.First(&method, "id = ? AND customer_id = ?", id, customerID)`. -/
def DBState.getPaymentMethodByCustomer (s : DBState) (id customerID : String) :
    Except DBErr PaymentMethod :=
  if s.storeFails then .error .other else
  match s.paymentMethods.find? (fun m => m.id == id && m.customerId == customerID) with
  | some m => .ok m
  | none => .error .recordNotFound

/-- internal/db/db.go `CreateCustomer`: overwrites both timestamps with
fresh `time.Now()` readings, then inserts.  Returns the row as stored
(the Go code mutates the caller's struct in place). -/
def DBState.createCustomer (s : DBState) (c : Customer) :
    Except DBErr Customer × DBState :=
  let (t1, s) := s.now
  let (t2, s) := s.now
  let c := { c with createdAt := t1, updatedAt := t2 }
  if s.storeFails then (.error .other, s)
  else (.ok c, { s with customers := s.customers ++ [c] })

/-- internal/db/db.go `CreatePaymentMethod`: overwrites `CreatedAt`, inserts. -/
def DBState.createPaymentMethod (s : DBState) (m : PaymentMethod) :
    Except DBErr PaymentMethod × DBState :=
  let (t1, s) := s.now
  let m := { m with createdAt := t1 }
  if s.storeFails then (.error .other, s)
  else (.ok m, { s with paymentMethods := s.paymentMethods ++ [m] })

/-- internal/db/db.go `CreatePayment`: overwrites both timestamps, inserts. -/
def DBState.createPayment (s : DBState) (p : Payment) :
    Except DBErr Payment × DBState :=
  let (t1, s) := s.now
  let (t2, s) := s.now
  let p := { p with createdAt := t1, updatedAt := t2 }
  if s.storeFails then (.error .other, s)
  else (.ok p, { s with payments := s.payments ++ [p] })

/-- internal/db/db.go `CreateRefund`: overwrites both timestamps, inserts. -/
def DBState.createRefund (s : DBState) (r : Refund) :
    Except DBErr Refund × DBState :=
  let (t1, s) := s.now
  let (t2, s) := s.now
  let r := { r with createdAt := t1, updatedAt := t2 }
  if s.storeFails then (.error .other, s)
  else (.ok r, { s with refunds := s.refunds ++ [r] })

/-- internal/db/db.go `ListCustomers`: `db.Limit(limit).Find(&customers)`.
gorm cancels the LIMIT clause for a negative argument and otherwise caps
the row count at `limit`. -/
def DBState.listCustomers (s : DBState) (limit : Int) :
    Except DBErr (List Customer) :=
  if s.storeFails then .error .other
  else if limit < 0 then .ok s.customers
  else .ok (s.customers.take limit.toNat)

/-- Identifier generation, `fmt.Sprintf("%s_%d", kind, time.Now().UnixNano())`:
the fixed per-kind string, an underscore, and the decimal clock reading. -/
def newID (k : String) (t : Nat) : String :=
  k ++ "_" ++ Nat.repr t

/-- Outcome of one handler call: a 2xx entity, a huma error with its HTTP
status and message, or a Go runtime panic. -/
inductive Result (α : Type) where
  | ok : α → Result α
  | apiErr : Nat → String → Result α
  | panics : Result α
  deriving Repr, DecidableEq

/-- internal/api `createCustomer` handler: no input validation; builds the
customer (id from one clock read, each timestamp from its own read),
then persists via `DB.CreateCustomer`.  A store failure is reported as
`huma.Error400BadRequest("Failed to create customer", err)`. -/
def createCustomer (s : DBState) (req : CreateCustomerRequest) :
    Result Customer × DBState :=
  let (t0, s) := s.now
  let (t1, s) := s.now
  let (t2, s) := s.now
  let c : Customer :=
    { id := newID "cus" t0, email := req.email, name := req.name,
      createdAt := t1, updatedAt := t2 }
  match s.createCustomer c with
  | (.ok c, s) => (.ok c, s)
  | (.error _, s) => (.apiErr 400 "Failed to create customer", s)

/-- The root-level legacy `main.go` variant of the createCustomer handler
(not wired into `cmd/server`): same construction, but a store failure is
reported with status 500, and the raw `db.Create` does not overwrite the
timestamps. -/
def mainCreateCustomer (s : DBState) (req : CreateCustomerRequest) :
    Result Customer × DBState :=
  let (t0, s) := s.now
  let (t1, s) := s.now
  let (t2, s) := s.now
  let c : Customer :=
    { id := newID "cus" t0, email := req.email, name := req.name,
      createdAt := t1, updatedAt := t2 }
  if s.storeFails then (.apiErr 500 "Failed to create customer", s)
  else (.ok c, { s with customers := s.customers ++ [c] })

/-- UTF-8 encoding of one character, as the bytes of a Go string.  Written
with division and remainder; `Char` excludes surrogates, so this is the
standard RFC 3629 encoding. -/
def charBytes (c : Char) : List Nat :=
  let n := c.toNat
  if n < 128 then [n]
  else if n < 2048 then [192 + n / 64, 128 + n % 64]
  else if n < 65536 then [224 + n / 4096, 128 + (n / 64) % 64, 128 + n % 64]
  else [240 + n / 262144, 128 + (n / 4096) % 64, 128 + (n / 64) % 64, 128 + n % 64]

/-- The byte content of a Go string: the UTF-8 encoding of its characters.
Go's `len` and slicing work on this list. -/
def utf8Bytes (s : String) : List Nat :=
  s.data.flatMap charBytes

/-- Go `req.CardNumber[len(req.CardNumber)-4:]`: the trailing four BYTES
of the string.  Defined only for byte length at least 4; the caller
models the shorter case as a panic, exactly as Go's slice bounds check
does. -/
def lastFour (str : String) : List Nat :=
  (utf8Bytes str).drop ((utf8Bytes str).length - 4)

/-- internal/api/methods.go `createPaymentMethod` handler: verify the
customer exists (`400 Customer not found` on `ErrRecordNotFound`, 500 on
any other store error), then build the method — the id's `time.Now()`
runs before the card-number slice, which panics when the card number is
shorter than four BYTES (`len` on a Go string counts bytes) — and
persist it. -/
def createPaymentMethod (s : DBState) (req : CreatePaymentMethodRequest) :
    Result PaymentMethod × DBState :=
  match s.getCustomer req.customerId with
  | .error .recordNotFound => (.apiErr 400 "Customer not found", s)
  | .error .other => (.apiErr 500 "Failed to verify customer", s)
  | .ok _ =>
    let (t0, s) := s.now
    if (utf8Bytes req.cardNumber).length < 4 then (.panics, s)
    else
      let (t1, s) := s.now
      let m : PaymentMethod :=
        { id := newID "pm" t0, customerId := req.customerId,
          methodType := req.methodType, last4 := lastFour req.cardNumber,
          expMonth := req.expMonth, expYear := req.expYear,
          brand := "visa", createdAt := t1 }
      match s.createPaymentMethod m with
      | (.ok m, s) => (.ok m, s)
      | (.error _, s) => (.apiErr 500 "Failed to create payment method", s)

/-- internal/api `createPayment` handler: verify the customer, verify the
payment method filtered by that customer, then persist a payment with
status "succeeded". -/
def createPayment (s : DBState) (req : CreatePaymentRequest) :
    Result Payment × DBState :=
  match s.getCustomer req.customerId with
  | .error .recordNotFound => (.apiErr 400 "Customer not found", s)
  | .error .other => (.apiErr 500 "Failed to verify customer", s)
  | .ok _ =>
    match s.getPaymentMethodByCustomer req.paymentMethodId req.customerId with
    | .error .recordNotFound =>
        (.apiErr 400 "Payment method not found or doesn\x27t belong to customer", s)
    | .error .other => (.apiErr 500 "Failed to verify payment method", s)
    | .ok _ =>
      let (t0, s) := s.now
      let (t1, s) := s.now
      let (t2, s) := s.now
      let p : Payment :=
        { id := newID "pay" t0, amount := req.amount, currency := req.currency,
          customerId := req.customerId, paymentMethodId := req.paymentMethodId,
          status := "succeeded", description := req.description,
          createdAt := t1, updatedAt := t2 }
      match s.createPayment p with
      | (.ok p, s) => (.ok p, s)
      | (.error _, s) => (.apiErr 500 "Failed to create payment", s)

/-- internal/api `createRefund` handler: fetch the payment, require its
status to be "succeeded", reject `req.Amount > payment.Amount`, then
persist a refund with status "succeeded".  There is no lower bound check
on the amount. -/
def createRefund (s : DBState) (req : CreateRefundRequest) :
    Result Refund × DBState :=
  match s.getPayment req.paymentId with
  | .error .recordNotFound => (.apiErr 400 "Payment not found", s)
  | .error .other => (.apiErr 500 "Failed to verify payment", s)
  | .ok payment =>
    if payment.status ≠ "succeeded" then
      (.apiErr 400 "Payment cannot be refunded", s)
    else if req.amount > payment.amount then
      (.apiErr 400 "Refund amount exceeds payment amount", s)
    else
      let (t0, s) := s.now
      let (t1, s) := s.now
      let (t2, s) := s.now
      let r : Refund :=
        { id := newID "ref" t0, paymentId := req.paymentId, amount := req.amount,
          status := "succeeded", reason := req.reason,
          createdAt := t1, updatedAt := t2 }
      match s.createRefund r with
      | (.ok r, s) => (.ok r, s)
      | (.error _, s) => (.apiErr 500 "Failed to create refund", s)

/-- internal/api `listCustomers` handler: forwards to `DB.ListCustomers`,
500 on store error. -/
def listCustomers (s : DBState) (limit : Int) :
    Result (List Customer) × DBState :=
  match s.listCustomers limit with
  | .ok cs => (.ok cs, s)
  | .error _ => (.apiErr 500 "Failed to list customers", s)

/-- internal/api/methods.go `listPaymentMethods` handler: a stub that
ignores the store, the filter and the limit and always answers with an
empty list. -/
def listPaymentMethods (s : DBState) (customerId : String) (limit : Int) :
    Result (List PaymentMethod) × DBState :=
  (.ok [], s)

/-- internal/api `listPayments` handler: the same always-empty stub. -/
def listPayments (s : DBState) (customerId : String) (limit : Int) :
    Result (List Payment) × DBState :=
  (.ok [], s)

/-- internal/api `listRefunds` handler: the same always-empty stub. -/
def listRefunds (s : DBState) (paymentId : String) (limit : Int) :
    Result (List Refund) × DBState :=
  (.ok [], s)

/-!
### Decimal rendering is injective

`newID` embeds the clock reading with `Nat.repr` (Go's `%d`).  Identifier
uniqueness reduces to injectivity of that rendering, proved here by
re-reading the digit list as a number.
-/

/-- Numeric value of a decimal digit character. -/
def digitVal (c : Char) : Nat := c.toNat - 48

/-- Read a digit list (most significant first) back as a number. -/
def decVal (l : List Char) : Nat :=
  l.foldl (fun a c => a * 10 + digitVal c) 0

/-- Run a sequence of CreateRefund requests against one payment, threading
the store state; `true` iff every request in the sequence succeeds. -/
def refundsAllSucceed (pid : String) : DBState → List Int → Bool
  | _, [] => true
  | s, a :: rest =>
    match createRefund s { paymentId := pid, amount := a, reason := "" } with
    | (.ok _, s') => refundsAllSucceed pid s' rest
    | _ => false

/-!
### Test fixture

A store holding one customer, one payment method owned by it, and one
succeeded payment, as in the walkthrough scenario of the spec.
-/

def cus1 : Customer :=
  { id := "cus_1", email := "a@b.com", name := "A", createdAt := 0, updatedAt := 0 }

def pm1 : PaymentMethod :=
  { id := "pm_1", customerId := "cus_1", methodType := "card",
    last4 := [52, 50, 52, 50], expMonth := 12, expYear := 2025,
    brand := "visa", createdAt := 1 }

def pay1 : Payment :=
  { id := "pay_1", amount := 2000, currency := "usd", customerId := "cus_1",
    paymentMethodId := "pm_1", status := "succeeded", description := "",
    createdAt := 2, updatedAt := 2 }

def baseState : DBState :=
  { customers := [cus1], paymentMethods := [pm1], payments := [pay1],
    refunds := [], clock := 10, storeFails := false }

def emptyState : DBState :=
  { customers := [], paymentMethods := [], payments := [],
    refunds := [], clock := 0, storeFails := false }

def failState : DBState :=
  { emptyState with storeFails := true }

theorem toDigitsCore_shape (fuel : Nat) :
    ∀ (n : Nat) (ds : List Char),
      Nat.toDigitsCore 10 fuel n ds = Nat.toDigitsCore 10 fuel n [] ++ ds := by
  induction fuel with
  | zero => intro n ds; simp [Nat.toDigitsCore]
  | succ fuel ih =>
    intro n ds
    simp only [Nat.toDigitsCore]
    by_cases h : n / 10 = 0
    · simp [h]
    · simp only [h, if_false]
      rw [ih (n / 10) (Nat.digitChar (n % 10) :: ds),
        ih (n / 10) [Nat.digitChar (n % 10)], List.append_assoc]
      rfl

theorem toDigitsCore_fuel :
    ∀ (fuel n : Nat) (ds : List Char), n < fuel →
      Nat.toDigitsCore 10 fuel n ds = Nat.toDigitsCore 10 (n + 1) n ds := by
  intro fuel
  induction fuel using Nat.strong_induction_on with
  | _ fuel ih =>
    cases fuel with
    | zero => intro n ds h; omega
    | succ f =>
      intro n ds h
      simp only [Nat.toDigitsCore]
      by_cases h0 : n / 10 = 0
      · simp [h0]
      · simp only [h0, if_false]
        have hn : 0 < n := by
          rcases Nat.eq_zero_or_pos n with h1 | h1
          · subst h1; simp at h0
          · exact h1
        have hd : n / 10 < n := Nat.div_lt_self hn (by decide)
        rw [ih f (by omega) (n / 10) _ (by omega),
          ih n (by omega) (n / 10) _ hd]

theorem toDigits_small {n : Nat} (h : n < 10) :
    Nat.toDigits 10 n = [Nat.digitChar n] := by
  have h0 : n / 10 = 0 := Nat.div_eq_of_lt h
  simp [Nat.toDigits, Nat.toDigitsCore, h0, Nat.mod_eq_of_lt h]

theorem toDigits_step {n : Nat} (h : 10 ≤ n) :
    Nat.toDigits 10 n = Nat.toDigits 10 (n / 10) ++ [Nat.digitChar (n % 10)] := by
  have h0 : ¬ n / 10 = 0 := by
    intro h0
    omega
  have hd : n / 10 < n := Nat.div_lt_self (by omega) (by decide)
  have step1 : Nat.toDigits 10 n =
      Nat.toDigitsCore 10 n (n / 10) [Nat.digitChar (n % 10)] := by
    simp only [Nat.toDigits, Nat.toDigitsCore, h0, if_false]
  rw [step1, toDigitsCore_fuel n (n / 10) _ hd, toDigitsCore_shape]
  rfl

theorem digitVal_digitChar {d : Nat} (h : d < 10) :
    digitVal (Nat.digitChar d) = d := by
  interval_cases d <;> decide

theorem decVal_toDigits (n : Nat) : decVal (Nat.toDigits 10 n) = n := by
  induction n using Nat.strong_induction_on with
  | _ n ih =>
    by_cases h : n < 10
    · rw [toDigits_small h]
      simp [decVal, digitVal_digitChar h]
    · push_neg at h
      have hd : n / 10 < n := Nat.div_lt_self (by omega) (by decide)
      rw [toDigits_step h]
      calc decVal (Nat.toDigits 10 (n / 10) ++ [Nat.digitChar (n % 10)])
          = decVal (Nat.toDigits 10 (n / 10)) * 10 + digitVal (Nat.digitChar (n % 10)) := by
            simp [decVal, List.foldl_append]
        _ = (n / 10) * 10 + n % 10 := by
            rw [ih (n / 10) hd, digitVal_digitChar (Nat.mod_lt n (by decide))]
        _ = n := by omega

theorem natRepr_injective {m n : Nat} (h : Nat.repr m = Nat.repr n) : m = n := by
  have h2 : Nat.toDigits 10 m = Nat.toDigits 10 n := by
    have := congrArg String.data h
    simpa [Nat.repr, List.asString] using this
  have h3 := congrArg decVal h2
  rwa [decVal_toDigits, decVal_toDigits] at h3

theorem stringAppend_cancel_left {a b c : String} (h : a ++ b = a ++ c) : b = c := by
  apply String.ext
  have h2 := congrArg String.data h
  simp only [String.data_append] at h2
  exact List.append_cancel_left h2

theorem newID_ne {k : String} {t u : Nat} (h : t ≠ u) : newID k t ≠ newID k u :=
  fun he => h (natRepr_injective (stringAppend_cancel_left he))

theorem newID_ne_empty (k : String) (t : Nat) : newID k t ≠ "" := by
  intro h
  have h2 := congrArg String.length h
  simp only [newID, String.length_append] at h2
  have h3 : ("" : String).length = 0 := rfl
  have h4 : ("_" : String).length = 1 := rfl
  rw [h3, h4] at h2
  omega

/-!
### Shared handler-shape lemmas
-/

/-- In its success branch `createRefund` appends exactly one refund, which
carries the request's payment id and amount with status "succeeded", and
touches nothing else in the store. -/
theorem createRefund_ok_shape (s : DBState) (req : CreateRefundRequest) (p : Payment)
    (hs : s.storeFails = false)
    (hp : s.payments.find? (fun q => q.id == req.paymentId) = some p)
    (hstat : p.status = "succeeded")
    (hamt : ¬ req.amount > p.amount) :
    ∃ r s', createRefund s req = (.ok r, s') ∧
      r.status = "succeeded" ∧ r.paymentId = req.paymentId ∧ r.amount = req.amount ∧
      s'.payments = s.payments ∧ s'.storeFails = false ∧
      s'.refunds = s.refunds ++ [r] := by
  simp only [createRefund, DBState.getPayment, DBState.now, DBState.createRefund,
    hs, hp, hstat, hamt, Bool.false_eq_true, if_false, ne_eq, not_true_eq_false,
    ite_false]
  exact ⟨_, _, rfl, rfl, rfl, rfl, rfl, rfl, rfl⟩

/-!
### Claims
-/

/-- C1: the claim requires `createRefund` to fail with `InvalidArgument`
(HTTP 400) exactly when the amount exceeds the payment's amount or is at
most zero.  The handler has no lower-bound check: against the succeeded
payment `pay_1` of amount 2000, a request with amount 0 is accepted and
a zero-amount refund is persisted, so the "amount <= 0 is rejected" half
of the claim fails on the code. -/
theorem createRefund_accepts_zero_amount :
    ∃ r s', createRefund baseState { paymentId := "pay_1", amount := 0, reason := "" } =
      (.ok r, s') ∧ r.amount = 0 ∧ r.status = "succeeded" ∧ s'.refunds = [r] :=
  ⟨_, _, rfl, rfl, rfl, rfl⟩

/-- C2: when the referenced payment is found but is not "succeeded",
`createRefund` answers 400 "Payment cannot be refunded" (the spec's
`InvalidState`) and leaves the store untouched; when it is "succeeded"
and the amount passes the handler's bound check, the call succeeds and
the refund carries status "succeeded", the request's payment id and the
request's amount. -/
theorem createRefund_invalid_state_or_success (s : DBState) (req : CreateRefundRequest)
    (p : Payment) (hs : s.storeFails = false)
    (hp : s.payments.find? (fun q => q.id == req.paymentId) = some p) :
    (p.status ≠ "succeeded" →
      createRefund s req = (.apiErr 400 "Payment cannot be refunded", s)) ∧
    (p.status = "succeeded" → ¬ req.amount > p.amount →
      ∃ r s', createRefund s req = (.ok r, s') ∧ r.status = "succeeded" ∧
        r.paymentId = req.paymentId ∧ r.amount = req.amount) := by
  constructor
  · intro hstat
    simp [createRefund, DBState.getPayment, hs, hp, hstat]
  · intro hstat hamt
    obtain ⟨r, s', heq, h1, h2, h3, _⟩ := createRefund_ok_shape s req p hs hp hstat hamt
    exact ⟨r, s', heq, h1, h2, h3⟩

theorem createRefund_invalid_state_or_success_witness :
    baseState.storeFails = false ∧
    baseState.payments.find? (fun q => q.id == "pay_1") = some pay1 ∧
    (pay1.status = "succeeded" → ¬ (2000 : Int) > pay1.amount →
      ∃ r s', createRefund baseState { paymentId := "pay_1", amount := 2000, reason := "x" } =
        (.ok r, s') ∧ r.status = "succeeded" ∧ r.paymentId = "pay_1" ∧ r.amount = 2000) :=
  ⟨rfl, by decide,
    (createRefund_invalid_state_or_success baseState
      { paymentId := "pay_1", amount := 2000, reason := "x" } pay1 rfl (by decide)).2⟩

/-- C5: the amount bound is enforced only against the single refund being
created.  For any store whose payment `p` is "succeeded" with amount `A`
and any sequence of refund requests against it with amounts in (0, A],
every request succeeds — including sequences whose total exceeds `A`. -/
theorem createRefund_no_cumulative_cap (s : DBState) (p : Payment) (amts : List Int)
    (hs : s.storeFails = false)
    (hp : s.payments.find? (fun q => q.id == p.id) = some p)
    (hstat : p.status = "succeeded")
    (hamts : ∀ a ∈ amts, 0 < a ∧ a ≤ p.amount) :
    refundsAllSucceed p.id s amts = true := by
  induction amts generalizing s with
  | nil => rfl
  | cons a rest ih =>
    obtain ⟨ha, hle⟩ := hamts a (by simp)
    obtain ⟨r, s', heq, _, _, _, hpay, hsf, _⟩ :=
      createRefund_ok_shape s { paymentId := p.id, amount := a, reason := "" } p
        hs hp hstat (show ¬ a > p.amount by omega)
    rw [refundsAllSucceed, heq]
    exact ih s' hsf (hpay ▸ hp) (fun b hb => hamts b (by simp [hb]))

/-- Witness for C5, the walkthrough scenario of the spec: two refunds of
2000 against the payment of amount 2000 both succeed, over-refunding it. -/
theorem createRefund_no_cumulative_cap_witness :
    baseState.storeFails = false ∧
    baseState.payments.find? (fun q => q.id == pay1.id) = some pay1 ∧
    pay1.status = "succeeded" ∧
    (∀ a ∈ [(2000 : Int), 2000], 0 < a ∧ a ≤ pay1.amount) ∧
    refundsAllSucceed pay1.id baseState [2000, 2000] = true :=
  ⟨rfl, by decide, rfl, by decide,
    createRefund_no_cumulative_cap baseState pay1 [2000, 2000] rfl (by decide) rfl
      (by decide)⟩

/-- C3: with the customer in place, `createPayment` answers 400
"Payment method not found ..." (the spec's `InvalidReference`) and leaves
the store untouched whenever no stored payment method has the requested
id together with the requesting customer as owner; when such a method is
stored, the call succeeds and the payment carries status "succeeded" and
the request's amount, currency, customer id and payment method id. -/
theorem createPayment_ownership (s : DBState) (req : CreatePaymentRequest) (c : Customer)
    (hs : s.storeFails = false)
    (hc : s.customers.find? (fun x => x.id == req.customerId) = some c) :
    ((∀ m ∈ s.paymentMethods, m.id = req.paymentMethodId → m.customerId ≠ req.customerId) →
      createPayment s req =
        (.apiErr 400 "Payment method not found or doesn\x27t belong to customer", s)) ∧
    ((∃ m ∈ s.paymentMethods, m.id = req.paymentMethodId ∧ m.customerId = req.customerId) →
      ∃ p s', createPayment s req = (.ok p, s') ∧ p.status = "succeeded" ∧
        p.amount = req.amount ∧ p.currency = req.currency ∧
        p.customerId = req.customerId ∧ p.paymentMethodId = req.paymentMethodId) := by
  constructor
  · intro hnone
    have hfind : s.paymentMethods.find?
        (fun m => m.id == req.paymentMethodId && m.customerId == req.customerId) = none := by
      rw [List.find?_eq_none]
      intro m hm
      simp only [Bool.and_eq_true, beq_iff_eq, not_and]
      exact hnone m hm
    simp [createPayment, DBState.getCustomer, DBState.getPaymentMethodByCustomer,
      hs, hc, hfind]
  · rintro ⟨m, hm, h1, h2⟩
    have hsome : (s.paymentMethods.find?
        (fun x => x.id == req.paymentMethodId && x.customerId == req.customerId)).isSome := by
      rw [List.find?_isSome]
      exact ⟨m, hm, by simp [h1, h2]⟩
    obtain ⟨m', hm'⟩ := Option.isSome_iff_exists.mp hsome
    simp only [createPayment, DBState.getCustomer, DBState.getPaymentMethodByCustomer,
      DBState.now, DBState.createPayment, hs, hc, hm', Bool.false_eq_true, if_false]
    exact ⟨_, _, rfl, rfl, rfl, rfl, rfl, rfl⟩

theorem createPayment_ownership_witness :
    baseState.storeFails = false ∧
    baseState.customers.find? (fun x => x.id == "cus_1") = some cus1 ∧
    ((∃ m ∈ baseState.paymentMethods, m.id = "pm_1" ∧ m.customerId = "cus_1") →
      ∃ p s', createPayment baseState
          { amount := 2000, currency := "usd", customerId := "cus_1",
            paymentMethodId := "pm_1", description := "" } = (.ok p, s') ∧
        p.status = "succeeded" ∧ p.amount = 2000 ∧ p.currency = "usd" ∧
        p.customerId = "cus_1" ∧ p.paymentMethodId = "pm_1") :=
  ⟨rfl, by decide,
    (createPayment_ownership baseState
      { amount := 2000, currency := "usd", customerId := "cus_1",
        paymentMethodId := "pm_1", description := "" } cus1 rfl (by decide)).2⟩

/-- C4: when no stored customer has the requested id, `createPaymentMethod`
answers 400 "Customer not found" (the spec's `InvalidReference`) and the
returned state is exactly the input state: nothing is written and the
clock is never read. -/
theorem createPaymentMethod_missing_customer (s : DBState) (req : CreatePaymentMethodRequest)
    (hs : s.storeFails = false)
    (hc : ∀ c ∈ s.customers, c.id ≠ req.customerId) :
    createPaymentMethod s req = (.apiErr 400 "Customer not found", s) := by
  have hfind : s.customers.find? (fun c => c.id == req.customerId) = none := by
    rw [List.find?_eq_none]
    intro c hcm
    simp [hc c hcm]
  simp [createPaymentMethod, DBState.getCustomer, hs, hfind]

theorem createPaymentMethod_missing_customer_witness :
    baseState.storeFails = false ∧
    (∀ c ∈ baseState.customers, c.id ≠ "cus_404") ∧
    createPaymentMethod baseState
      { customerId := "cus_404", methodType := "card",
        cardNumber := "4242424242424242", expMonth := 12, expYear := 2025,
        cvc := "123" } = (.apiErr 400 "Customer not found", baseState) :=
  ⟨rfl, by decide,
    createPaymentMethod_missing_customer baseState
      { customerId := "cus_404", methodType := "card",
        cardNumber := "4242424242424242", expMonth := 12, expYear := 2025,
        cvc := "123" } rfl (by decide)⟩

/-- C10 counterexample: Go slices the card number by BYTE, not by
character, so the claim's character counts are wrong on reachable
non-ASCII input.  The card number made of three U+00E9 characters has
fewer than four characters — the claim predicts the slice is out of
bounds — yet its UTF-8 encoding has six bytes and the handler succeeds
without panicking; and for the five-character card number "aaa" +
U+00E9 + U+00E9 the persisted `last4` is the trailing four bytes, which
differ from the encoding of the trailing four characters. -/
theorem createPaymentMethod_slices_bytes_not_chars :
    (("\xe9\xe9\xe9" : String).data.length < 4 ∧
      ∃ pm s', createPaymentMethod baseState
        { customerId := "cus_1", methodType := "card", cardNumber := "\xe9\xe9\xe9",
          expMonth := 12, expYear := 2025, cvc := "123" } = (.ok pm, s')) ∧
    (∃ pm s', createPaymentMethod baseState
        { customerId := "cus_1", methodType := "card", cardNumber := "aaa\xe9\xe9",
          expMonth := 12, expYear := 2025, cvc := "123" } = (.ok pm, s') ∧
      pm.last4 = [195, 169, 195, 169] ∧
      pm.last4 ≠ utf8Bytes (String.mk (("aaa\xe9\xe9" : String).data.drop
        (("aaa\xe9\xe9" : String).data.length - 4)))) :=
  ⟨⟨by decide, _, _, rfl⟩, _, _, rfl, rfl, by decide⟩

/-- C10 amended: with the referenced customer present,
`createPaymentMethod` is total exactly for card numbers whose UTF-8
encoding has at least four bytes: it then succeeds and the stored
`last4` is the trailing-four-byte suffix of that encoding; for a card
number, possibly empty, encoded in fewer than four bytes the Go slice
`req.CardNumber[len(req.CardNumber)-4:]` is out of bounds and the
handler panics. -/
theorem createPaymentMethod_last4_bytes_or_panics (s : DBState)
    (req : CreatePaymentMethodRequest) (c : Customer)
    (hs : s.storeFails = false)
    (hc : s.customers.find? (fun x => x.id == req.customerId) = some c) :
    (4 ≤ (utf8Bytes req.cardNumber).length →
      ∃ pm s', createPaymentMethod s req = (.ok pm, s') ∧ pm.last4.length = 4 ∧
        utf8Bytes req.cardNumber =
          (utf8Bytes req.cardNumber).take ((utf8Bytes req.cardNumber).length - 4) ++
            pm.last4) ∧
    ((utf8Bytes req.cardNumber).length < 4 →
      ∃ s', createPaymentMethod s req = (.panics, s')) := by
  constructor
  · intro hlen
    have hnp : ¬ (utf8Bytes req.cardNumber).length < 4 := by omega
    simp only [createPaymentMethod, DBState.getCustomer, DBState.now,
      DBState.createPaymentMethod, hs, hc, hnp, Bool.false_eq_true, if_false]
    refine ⟨_, _, rfl, ?_, ?_⟩
    · show (lastFour req.cardNumber).length = 4
      simp only [lastFour, List.length_drop]
      omega
    · show utf8Bytes req.cardNumber = _ ++ lastFour req.cardNumber
      exact (List.take_append_drop _ _).symm
  · intro hlen
    refine ⟨{ s with clock := s.clock + 1 }, ?_⟩
    simp only [createPaymentMethod, DBState.getCustomer, DBState.now,
      hs, hc, hlen, Bool.false_eq_true, if_false, if_true, ite_true]

theorem createPaymentMethod_last4_bytes_or_panics_witness :
    baseState.storeFails = false ∧
    baseState.customers.find? (fun x => x.id == "cus_1") = some cus1 ∧
    (4 ≤ (utf8Bytes "4242424242424242").length →
      ∃ pm s', createPaymentMethod baseState
          { customerId := "cus_1", methodType := "card",
            cardNumber := "4242424242424242", expMonth := 12, expYear := 2025,
            cvc := "123" } = (.ok pm, s') ∧ pm.last4.length = 4 ∧
        utf8Bytes "4242424242424242" =
          (utf8Bytes "4242424242424242").take
            ((utf8Bytes "4242424242424242").length - 4) ++ pm.last4) ∧
    ((utf8Bytes "42").length < 4 →
      ∃ s', createPaymentMethod baseState
        { customerId := "cus_1", methodType := "card", cardNumber := "42",
          expMonth := 12, expYear := 2025, cvc := "123" } = (.panics, s')) :=
  ⟨rfl, by decide,
    (createPaymentMethod_last4_bytes_or_panics baseState
      { customerId := "cus_1", methodType := "card",
        cardNumber := "4242424242424242", expMonth := 12, expYear := 2025,
        cvc := "123" } cus1 rfl (by decide)).1,
    (createPaymentMethod_last4_bytes_or_panics baseState
      { customerId := "cus_1", methodType := "card", cardNumber := "42",
        expMonth := 12, expYear := 2025, cvc := "123" } cus1 rfl (by decide)).2⟩

/-- C6 counterexample: on a fresh store, the customer returned by
`createCustomer` has `createdAt` and `updatedAt` taken from two distinct
clock readings (the handler and then the repository each call
`time.Now()` separately for the two fields), so the claimed equality
`created_at == updated_at` fails. -/
theorem createCustomer_timestamps_not_equal :
    ∃ c s', createCustomer emptyState { email := "a@b.com", name := "A" } =
      (.ok c, s') ∧ c.createdAt ≠ c.updatedAt :=
  ⟨_, _, rfl, by decide⟩

/-- C6 amended: the returned customer has a non-empty id of the shape
`cus_` followed by the decimal clock reading, distinct from every
previously assigned customer id, and `createdAt ≤ updatedAt` (the two
fields come from consecutive clock readings, so equality is not
guaranteed). -/
theorem createCustomer_id_fresh (s : DBState) (req : CreateCustomerRequest)
    (hs : s.storeFails = false)
    (hprev : ∀ c ∈ s.customers, ∃ t, t < s.clock ∧ c.id = newID "cus" t) :
    ∃ c s', createCustomer s req = (.ok c, s') ∧
      c.id ≠ "" ∧ c.id = "cus_" ++ Nat.repr s.clock ∧
      (∀ c0 ∈ s.customers, c0.id ≠ c.id) ∧ c.createdAt ≤ c.updatedAt := by
  simp only [createCustomer, DBState.now, DBState.createCustomer, hs,
    Bool.false_eq_true, if_false]
  refine ⟨_, _, rfl, newID_ne_empty "cus" s.clock, ?_, ?_, ?_⟩
  · show newID "cus" s.clock = "cus_" ++ Nat.repr s.clock
    rw [newID]
    exact congrArg (· ++ Nat.repr s.clock) (by decide)
  · intro c0 hc0
    obtain ⟨t, ht, hid⟩ := hprev c0 hc0
    rw [hid]
    exact newID_ne (by omega)
  · show s.clock + 3 ≤ s.clock + 4
    omega

theorem createCustomer_id_fresh_witness :
    baseState.storeFails = false ∧
    (∀ c ∈ baseState.customers, ∃ t, t < baseState.clock ∧ c.id = newID "cus" t) ∧
    (∃ c s', createCustomer baseState { email := "e@f.io", name := "N" } = (.ok c, s') ∧
      c.id ≠ "" ∧ c.id = "cus_" ++ Nat.repr baseState.clock ∧
      (∀ c0 ∈ baseState.customers, c0.id ≠ c.id) ∧ c.createdAt ≤ c.updatedAt) := by
  have hprev : ∀ c ∈ baseState.customers, ∃ t, t < baseState.clock ∧ c.id = newID "cus" t := by
    intro c hcm
    simp only [baseState, List.mem_singleton] at hcm
    subst hcm
    exact ⟨1, by decide, by decide⟩
  exact ⟨rfl, hprev, createCustomer_id_fresh baseState { email := "e@f.io", name := "N" } rfl hprev⟩

/-- C7: the handler performs no input validation and classifies a store
failure as 400 Bad Request (the spec's `InvalidArgument` class), not as
500/`Unavailable`: with a failing store a perfectly valid request gets
status 400, while with a healthy store an empty email and name are
accepted and persisted.  The legacy root `main.go` variant of the same
endpoint reports the same store failure as 500, showing the intended
classification. -/
theorem createCustomer_error_classification :
    (∃ s', createCustomer failState { email := "a@b.com", name := "A" } =
      (.apiErr 400 "Failed to create customer", s')) ∧
    (∃ c s', createCustomer emptyState { email := "", name := "" } =
      (.ok c, s') ∧ c.email = "" ∧ c.name = "") ∧
    (∃ s', mainCreateCustomer failState { email := "a@b.com", name := "A" } =
      (.apiErr 500 "Failed to create customer", s')) :=
  ⟨⟨_, rfl⟩, ⟨_, _, rfl, rfl, rfl⟩, ⟨_, rfl⟩⟩

/-- C8 counterexample: the store holds a payment method owned by `cus_1`
and matching the filter, yet `listPaymentMethods` answers with the empty
list — the payment-method, payment and refund list handlers are stubs
that never consult the store. -/
theorem listPaymentMethods_returns_empty_on_nonempty_store :
    listPaymentMethods baseState "cus_1" 10 = (.ok [], baseState) ∧
    baseState.paymentMethods = [pm1] ∧ pm1.customerId = "cus_1" :=
  ⟨rfl, rfl, rfl⟩

/-- C8 amended: `listCustomers` with limit N at least 0 really reads the
store: it returns exactly the first N stored customers in store order —
all of them when at most N are stored — hence never more than N, and the
empty store yields the empty list, not an error (the customers endpoint
takes no equality filter); the payment-method, payment and refund list
operations always return the empty list, whatever is stored and
whatever the filter. -/
theorem list_operations_behavior (s : DBState) (cid pid : String) (n : Int)
    (hs : s.storeFails = false) :
    (0 ≤ n → ∃ cs, listCustomers s n = (.ok cs, s) ∧
      cs = s.customers.take n.toNat ∧ cs.length ≤ n.toNat ∧
      (s.customers.length ≤ n.toNat → cs = s.customers) ∧
      (s.customers = [] → cs = [])) ∧
    listPaymentMethods s cid n = (.ok [], s) ∧
    listPayments s cid n = (.ok [], s) ∧
    listRefunds s pid n = (.ok [], s) := by
  refine ⟨?_, rfl, rfl, rfl⟩
  intro hn
  have hneg : ¬ n < 0 := by omega
  refine ⟨s.customers.take n.toNat, ?_, rfl, ?_, ?_, ?_⟩
  · simp [listCustomers, DBState.listCustomers, hs, hneg]
  · rw [List.length_take]
    exact Nat.min_le_left _ _
  · intro h
    exact List.take_of_length_le h
  · intro h
    simp [h]

theorem list_operations_behavior_witness :
    baseState.storeFails = false ∧
    ((0 : Int) ≤ 10 → ∃ cs, listCustomers baseState 10 = (.ok cs, baseState) ∧
      cs = baseState.customers.take (10 : Int).toNat ∧
      cs.length ≤ (10 : Int).toNat ∧
      (baseState.customers.length ≤ (10 : Int).toNat → cs = baseState.customers) ∧
      (baseState.customers = [] → cs = [])) ∧
    baseState.customers.take (10 : Int).toNat = [cus1] ∧
    listPaymentMethods baseState "cus_1" 10 = (.ok [], baseState) ∧
    listPayments baseState "cus_1" 10 = (.ok [], baseState) ∧
    listRefunds baseState "pay_1" 10 = (.ok [], baseState) :=
  ⟨rfl, (list_operations_behavior baseState "cus_1" "pay_1" 10 rfl).1,
    by decide,
    (list_operations_behavior baseState "cus_1" "pay_1" 10 rfl).2.1,
    (list_operations_behavior baseState "cus_1" "pay_1" 10 rfl).2.2.1,
    (list_operations_behavior baseState "cus_1" "pay_1" 10 rfl).2.2.2⟩

/-- C9: every generated identifier is the entity kind's fixed string, an
underscore and a suffix, and two identifiers generated at different
clock readings — which is what any two calls in one process get, the
clock being strictly increasing — are distinct. -/
theorem newID_format_unique (k : String) (t u : Nat) (h : t ≠ u) :
    (∃ suf, newID k t = k ++ "_" ++ suf) ∧ newID k t ≠ newID k u :=
  ⟨⟨Nat.repr t, rfl⟩, newID_ne h⟩

theorem newID_format_unique_witness :
    (0 : Nat) ≠ 1 ∧ (∃ suf, newID "cus" 0 = "cus" ++ "_" ++ suf) ∧
      newID "cus" 0 ≠ newID "cus" 1 :=
  ⟨by decide, (newID_format_unique "cus" 0 1 (by decide)).1,
    (newID_format_unique "cus" 0 1 (by decide)).2⟩

end PaymentAPI
